import Mathlib

/-!
Verification development for the LyoPRONTO streamlit application (src/st.py).

The file shallowly embeds the pure computational content of the application:

* `calculate_drying_time` (st.py lines 93-111): the drying-time prediction
  formula used by the advanced-tools tab.
* The primary-drying-calculator result construction (st.py lines 258-304):
  the calculator calls `calc_knownRp.dry`, extracts the seven output
  columns, and displays a single metric (the primary drying time) together
  with a seven-column data table.  The equipment-capability dictionary
  `eq_cap = {a, b}` is constructed (lines 258-261) but never passed to the
  drying routine nor consulted afterwards.
* The advanced-tools simulation trace generation (st.py lines 684-717),
  which fills the trace arrays from the configured phase durations and two
  draws of `np.random.rand`.
* The design-space grid (st.py lines 822-836) and the optimization
  analysis formulas (st.py lines 947-949).

Floating-point arithmetic of the source is modelled exactly over `ℚ`
(and over `ℝ` for the two formulas that use transcendental functions:
`x ** 1.5` in `calculate_drying_time` and `np.exp` in the simulated
sublimation-rate and moisture columns).
-/

/-- Clamp of the heat-transfer coefficient, `min(max(kv, 0.0), 1.0)` from
st.py line 108. -/
def kvClamp (kv : ℝ) : ℝ := min (max kv 0) 1

/-- The fill-height factor of `calculate_drying_time`, st.py lines 99-102:
`1 + 0.5 * (fill_depth - 1.0) ** 1.5` when `fill_depth > 1.0`, else `1.0`. -/
noncomputable def heightFactor (fill_depth : ℝ) : ℝ :=
  if 1 < fill_depth then 1 + (1/2) * (fill_depth - 1) ^ ((3 : ℝ)/2) else 1

/-- Embedding of `calculate_drying_time(fill_depth, protein_conc, kv)`,
st.py lines 93-111: `20.0 * height_factor * (1 + 0.02*protein_conc) *
(1.5 - 0.5*min(max(kv,0),1))`. -/
noncomputable def calculate_drying_time (fill_depth protein_conc kv : ℝ) : ℝ :=
  20 * heightFactor fill_depth * (1 + (2/100) * protein_conc)
    * ((3/2) - (1/2) * kvClamp kv)

/-- One record of the primary-drying trace: the seven columns of the
`calc_knownRp.dry` output matrix, in the order the calculator unpacks them
(st.py lines 277-283): `output[:,0]` … `output[:,6]`. -/
structure TraceRecord where
  time : ℚ
  T_sub : ℚ
  T_bot : ℚ
  T_sh : ℚ
  P_ch : ℚ
  dmdt : ℚ
  percent_dried : ℚ
deriving DecidableEq, Repr

/-- Unpacking of one output row into the seven named series,
mirroring `output[:, i]` for `i = 0..6` (st.py lines 277-283). -/
def rowToRecord (row : List ℚ) : TraceRecord :=
  { time := row.getD 0 0
    T_sub := row.getD 1 0
    T_bot := row.getD 2 0
    T_sh := row.getD 3 0
    P_ch := row.getD 4 0
    dmdt := row.getD 5 0
    percent_dried := row.getD 6 0 }

/-- The trace extracted from the solver output matrix. -/
def extractTrace (output : List (List ℚ)) : List TraceRecord :=
  output.map rowToRecord

/-- Column `i` of the output matrix. -/
def colVals (i : ℕ) (output : List (List ℚ)) : List ℚ :=
  output.map (fun row => row.getD i 0)

/-- Embedding of `primary_drying_time = time_points[-1]` (st.py line 286). -/
def primaryDryingTime (output : List (List ℚ)) : ℚ :=
  (colVals 0 output).getLastD 0

/-- The equipment-capability dictionary built by the calculator,
`eq_cap = {'a': a_val, 'b': b_val}` (st.py lines 258-261). -/
structure EqCap where
  a : ℚ
  b : ℚ
deriving DecidableEq, Repr

/-- Everything the primary-drying calculator derives from a run and shows:
the summary metrics (st.py line 290 displays exactly one metric, the
primary drying time) and the result table columns in their displayed
order (st.py lines 293-301). -/
structure CalcDisplay where
  summaryMetrics : List (String × ℚ)
  traceColumns : List (String × List ℚ)
deriving DecidableEq, Repr

/-- Embedding of the calculator's result construction, st.py lines
258-304.  The `eq_cap` dictionary is in scope (lines 258-261) but the code
never uses it: it is not an argument of `calc_knownRp.dry` (lines 267-274)
and does not appear in the displayed metric or table. -/
def primaryCalcDisplay (output : List (List ℚ)) (eq_cap : EqCap) : CalcDisplay :=
  { summaryMetrics := [("Primary Drying Time (hr)", primaryDryingTime output)]
    traceColumns :=
      [ ("Time (hr)", colVals 0 output)
      , ("Sublimation Temp (°C)", colVals 1 output)
      , ("Vial Bottom Temp (°C)", colVals 2 output)
      , ("Shelf Temp (°C)", colVals 3 output)
      , ("Chamber Pressure (mTorr)", colVals 4 output)
      , ("Sublimation Rate (kg/hr/m²)", colVals 5 output)
      , ("Percent Dried (%)", colVals 6 output) ] }

/-- Modelled from the spec: the equipment-capacity choking curve
`mass_flow_max(Pch) = a + b*Pch` (spec section "EquipmentCapacity");
used only to state the premise of the capacity-violation scenario.  The
calculator code under src/ never evaluates this curve. -/
def specCapacityLimit (e : EqCap) (Pch : ℚ) : ℚ := e.a + e.b * Pch

/-- Peak sublimation rate of a run: maximum of the `dmdt` column. -/
def peakDmdt (output : List (List ℚ)) : ℚ :=
  (colVals 5 output).foldr max 0

/-- Configuration of the advanced-tools simulation / design-space /
optimization tabs (st.py `params` dictionary, lines 542-569): the primary
and secondary drying settings and the predicted collapse temperature
`thermal_params['Tc']`. -/
structure AdvParams where
  Tc : ℚ
  primary_temp : ℚ
  primary_pressure : ℚ
  primary_time : ℚ
  secondary_start : ℚ
  secondary_end : ℚ
  secondary_time : ℚ
deriving DecidableEq, Repr

/-- Embedding of `optimized_time = params['primary']['time'] * 0.85`
(st.py line 947). -/
def optimized_time (p : AdvParams) : ℚ := p.primary_time * (85/100)

/-- Embedding of `optimized_temp = min(params['primary']['temp'] + 2,
params['thermal_params']['Tc'] - 3)` (st.py line 948). -/
def optimized_temp (p : AdvParams) : ℚ := min (p.primary_temp + 2) (p.Tc - 3)

/-- Embedding of `optimized_pressure = max(params['primary']['pressure'] * 1.2, 50)`
(st.py line 949). -/
def optimized_pressure (p : AdvParams) : ℚ :=
  max (p.primary_pressure * (12/10)) 50

/-- The recommended operating point of the optimization-analysis tab. -/
structure OptimizationResult where
  drying_time : ℚ
  shelf_temp : ℚ
  pressure : ℚ
deriving DecidableEq, Repr

/-- Embedding of the optimization analysis (st.py lines 943-975): it
unconditionally computes the three formulas of lines 947-949 and presents
them as the optimized values; there is no feasibility check and no error
path anywhere in the tab. -/
def optimizationAnalysis (p : AdvParams) : OptimizationResult :=
  { drying_time := optimized_time p
    shelf_temp := optimized_temp p
    pressure := optimized_pressure p }

/-- Re-running with the recommendation's setpoints fed back into the
configuration: only the shelf temperature and chamber pressure change;
the configured phase durations are untouched. -/
def feedbackParams (p : AdvParams) : AdvParams :=
  { p with primary_temp := optimized_temp p
           primary_pressure := optimized_pressure p }

/-- Total simulated time span, `params['primary']['time'] +
params['secondary']['time']` (st.py line 685). -/
def totalTime (p : AdvParams) : ℚ := p.primary_time + p.secondary_time

/-- The `k`-th of the 100 time points,
`np.linspace(0, total, 100)` (st.py line 685). -/
def timePoint (p : AdvParams) (k : ℕ) : ℚ := totalTime p * k / 99

/-- The primary-drying mask `time_points <= params['primary']['time']`
(st.py line 692). -/
def isPrimaryPhase (p : AdvParams) (k : ℕ) : Bool :=
  decide (timePoint p k ≤ p.primary_time)

/-- Number of time points in the primary phase (`np.sum(primary_mask)`,
st.py line 694); the primary points are a prefix of the 100 points, so the
positional index of point `k` inside the secondary batch is `k` minus this
count. -/
def primaryCount (p : AdvParams) : ℕ :=
  (List.range 100).countP (fun k => isPrimaryPhase p k)

/-- The two batches of uniform random draws consumed by the simulated
trace: `np.random.rand(np.sum(primary_mask))` for the primary rows and
`np.random.rand(np.sum(secondary_mask))` for the secondary rows (st.py
lines 694 and 703), modelled as explicit inputs. -/
structure SimNoise where
  r1 : ℕ → ℚ
  r2 : ℕ → ℚ

/-- Shelf-temperature column of the simulated trace (st.py lines 693 and
701-702). -/
def shelfTempAt (p : AdvParams) (k : ℕ) : ℚ :=
  if isPrimaryPhase p k then p.primary_temp
  else p.secondary_start +
    (p.secondary_end - p.secondary_start) * (timePoint p k - p.primary_time) / 2

/-- Product-temperature column of the simulated trace (st.py lines 694 and
703): the primary rows subtract `5 + 2*rand`, the secondary rows subtract
`2 + rand` from the shelf temperature. -/
def productTempAt (p : AdvParams) (n : SimNoise) (k : ℕ) : ℚ :=
  if isPrimaryPhase p k then p.primary_temp - 5 - 2 * n.r1 k
  else shelfTempAt p k - 2 - n.r2 (k - primaryCount p)

/-- Sublimation-rate column of the simulated trace (st.py lines 695 and
704). -/
noncomputable def sublimationRateAt (p : AdvParams) (k : ℕ) : ℝ :=
  if isPrimaryPhase p k then (1/2) * (1 - Real.exp (-(timePoint p k : ℝ)/2))
  else (1/10) * Real.exp (-((timePoint p k : ℝ) - (p.primary_time : ℝ)))

/-- Residual-moisture column of the simulated trace (st.py lines 696 and
705). -/
noncomputable def moistureAt (p : AdvParams) (k : ℕ) : ℝ :=
  if isPrimaryPhase p k then
    100 - 80 * (timePoint p k : ℝ) / (p.primary_time : ℝ)
  else 20 * Real.exp (-((timePoint p k : ℝ) - (p.primary_time : ℝ)) * 2)

/-- One full simulated run of the advanced-tools "Simulation Results" tab
(st.py lines 684-717): the five columns of the result data frame, each of
length 100, together with the final time point. -/
structure SimOutput where
  times : List ℚ
  shelf : List ℚ
  product : List ℚ
  subRate : List ℝ
  moisture : List ℝ
  total_time : ℚ

/-- Running the simulated trace generation on a configuration and a pair
of random batches. -/
noncomputable def runSimulation (p : AdvParams) (n : SimNoise) : SimOutput :=
  { times := (List.range 100).map (fun k => timePoint p k)
    shelf := (List.range 100).map (fun k => shelfTempAt p k)
    product := (List.range 100).map (fun k => productTempAt p n k)
    subRate := (List.range 100).map (fun k => sublimationRateAt p k)
    moisture := (List.range 100).map (fun k => moistureAt p k)
    total_time := totalTime p }

/-- The design-space pressure axis, `np.linspace(50, 300, 10)` (st.py
line 822). -/
def designPressures : List ℚ :=
  (List.range 10).map (fun j => 50 + 250 * j / 9)

/-- The design-space temperature axis,
`np.linspace(Tc - 15, Tc - 1, 10)` (st.py line 823). -/
def designTemps (p : AdvParams) : List ℚ :=
  (List.range 10).map (fun i => (p.Tc - 15) + 14 * i / 9)

/-- One drying-time cell of the design-space grid (st.py lines 831-833):
`params['primary']['time'] * ((Tc - temp)/5) * (150/press)`. -/
def dryingTimeCell (p : AdvParams) (temp press : ℚ) : ℚ :=
  p.primary_time * ((p.Tc - temp) / 5) * (150 / press)

/-- One safe-zone cell of the design-space grid (st.py line 836):
`1 if temp < Tc - 3 else 0`.  The chamber pressure is a parameter of the
cell but the condition does not mention it. -/
def safeZoneCell (p : AdvParams) (temp press : ℚ) : Bool :=
  decide (temp < p.Tc - 3)

/-- Value of the grid cell with temperature index `i` and pressure index
`j`: the pair of the drying time and the safe-zone flag (st.py lines
828-836). -/
def cellValue (p : AdvParams) (ij : ℕ × ℕ) : ℚ × Bool :=
  ((dryingTimeCell p ((designTemps p).getD ij.1 0) (designPressures.getD ij.2 0)),
   (safeZoneCell p ((designTemps p).getD ij.1 0) (designPressures.getD ij.2 0)))

/-- Writing one cell into a partially filled grid. -/
def gridWrite (p : AdvParams) (g : ℕ × ℕ → Option (ℚ × Bool)) (ij : ℕ × ℕ) :
    ℕ × ℕ → Option (ℚ × Bool) :=
  fun xy => if xy = ij then some (cellValue p ij) else g xy

/-- Filling the design-space grid by visiting the cells in the order given
by `order` (the source's nested `for` loops visit them row by row; the
fill of `drying_times[i, j]` and `safe_zone[i, j]` depends only on the
cell's own temperature and pressure). -/
def fillGrid (p : AdvParams) (order : List (ℕ × ℕ)) : ℕ × ℕ → Option (ℚ × Bool) :=
  order.foldl (gridWrite p) (fun _ => none)

/-- The drying time a run of the simulation reports for a configuration:
the comparison table's "Current Value" row lists
`params['primary']['time]` as the drying time of the run (st.py line
955), and the simulated trace ends its primary-drying phase at that
configured time (the mask of line 692 and the phase separator of line
793). -/
def currentDryingTime (p : AdvParams) : ℚ := p.primary_time

/-! ### Concrete example inputs used by counterexamples and witnesses -/

/-- A concrete two-row solver output: pressure held at 0.15 Torr and a
sublimation rate of 1 kg/hr in each row. -/
def exOutput : List (List ℚ) :=
  [[0, -30, -28, -35, 15/100, 1, 0], [1, -20, -18, 20, 15/100, 1, 100]]

/-- A concrete one-row solver output. -/
def exOutput3 : List (List ℚ) :=
  [[12, -25, -20, 20, 15/100, 1/2, 100]]

/-- A concrete advanced-tools configuration: `Tc = -30`, primary drying at
-35 °C / 100 mTorr for 20 hr, secondary drying from 0 °C to 25 °C for
4 hr. -/
def exParams : AdvParams :=
  { Tc := -30
    primary_temp := -35
    primary_pressure := 100
    primary_time := 20
    secondary_start := 0
    secondary_end := 25
    secondary_time := 4 }

/-- The same configuration with the unreachably low critical temperature
`Tc = -40` of the infeasibility scenario, and primary drying at -33 °C. -/
def exParamsLowTc : AdvParams :=
  { Tc := -40
    primary_temp := -33
    primary_pressure := 100
    primary_time := 20
    secondary_start := 0
    secondary_end := 25
    secondary_time := 4 }

/-! ### C9 -/

/-- C9: for every input configuration, the recommended shelf temperature
is at most `Tc - 3` and the recommended chamber pressure is at least
50 mTorr. -/
theorem C9_recommendation_bounds (p : AdvParams) :
    (optimizationAnalysis p).shelf_temp ≤ p.Tc - 3 ∧
      50 ≤ (optimizationAnalysis p).pressure :=
  ⟨min_le_right _ _, le_max_right _ _⟩

/-! ### C2 -/

/-- C2: counterexample.  With the unreachably low critical temperature
`Tc = -40`, the optimization analysis does not fail: it returns the
recommended operating point (17 hr, -43 °C, 120 mTorr).  No
`InfeasibleRegionError` (or any other failure path) exists in the code. -/
theorem C2_counterexample :
    exParamsLowTc.Tc = -40 ∧
      optimizationAnalysis exParamsLowTc =
        { drying_time := 17, shelf_temp := -43, pressure := 120 } := by
  constructor
  · rfl
  · show OptimizationResult.mk _ _ _ = _
    norm_num [optimizationAnalysis, optimized_time, optimized_temp,
      optimized_pressure, exParamsLowTc, min_def, max_def]

/-- C2 (amended): the optimization analysis is total and performs no
feasibility check: for every configuration it returns a recommendation
whose drying time and pressure do not depend on the critical temperature
`Tc` at all, with `drying_time = 0.85` times the configured primary
drying time; `Tc` only clamps the recommended shelf temperature to
`Tc - 3`. -/
theorem C2_analysis_total_no_infeasibility (p : AdvParams) (t₁ t₂ : ℚ) :
    (optimizationAnalysis { p with Tc := t₁ }).drying_time =
        (optimizationAnalysis { p with Tc := t₂ }).drying_time ∧
      (optimizationAnalysis { p with Tc := t₁ }).pressure =
        (optimizationAnalysis { p with Tc := t₂ }).pressure ∧
      (optimizationAnalysis p).drying_time = p.primary_time * (85/100) ∧
      (optimizationAnalysis p).shelf_temp ≤ p.Tc - 3 :=
  ⟨rfl, rfl, rfl, min_le_right _ _⟩

/-! ### C1 -/

/-- C1: counterexample.  With `EquipmentCapacity{a = -0.182, b = 0.0117}`
and 398 vials, the example run's peak `dmdt * nVial` exceeds
`a + b * Pch` at the held pressure 0.15 Torr, yet the calculator's
display is identical to the one produced with a zero capacity curve, and
its summary consists of the single metric "Primary Drying Time (hr)" —
no `capacity_violated` flag is ever set. -/
theorem C1_counterexample :
    peakDmdt exOutput * 398 >
        specCapacityLimit { a := -182/1000, b := 117/10000 } (15/100) ∧
      primaryCalcDisplay exOutput { a := -182/1000, b := 117/10000 } =
        primaryCalcDisplay exOutput { a := 0, b := 0 } ∧
      (primaryCalcDisplay exOutput
            { a := -182/1000, b := 117/10000 }).summaryMetrics.map Prod.fst =
        ["Primary Drying Time (hr)"] := by
  refine ⟨?_, rfl, rfl⟩
  norm_num [peakDmdt, specCapacityLimit, colVals, exOutput]

/-- C1 (amended): the primary-drying calculator builds the
equipment-capability pair `{a, b}` but never uses it: the displayed
results are independent of it, and the summary contains only the primary
drying time, never a `capacity_violated` flag. -/
theorem C1_capacity_pair_unused (output : List (List ℚ)) (e₁ e₂ : EqCap) :
    primaryCalcDisplay output e₁ = primaryCalcDisplay output e₂ ∧
      (primaryCalcDisplay output e₁).summaryMetrics.map Prod.fst =
        ["Primary Drying Time (hr)"] :=
  ⟨rfl, rfl⟩

/-! ### C3 -/

/-- C3: counterexample.  The summary of a concrete run is a single
metric — the primary drying time — so it contains neither `peak_T_bot`
nor the `capacity_violated` / `temp_violated` booleans. -/
theorem C3_counterexample :
    (primaryCalcDisplay exOutput3 { a := 0, b := 0 }).summaryMetrics =
        [("Primary Drying Time (hr)", 12)] ∧
      (primaryCalcDisplay exOutput3 { a := 0, b := 0 }).summaryMetrics.length
        = 1 := by
  constructor
  · show [("Primary Drying Time (hr)", primaryDryingTime exOutput3)] = _
    norm_num [primaryDryingTime, colVals, exOutput3]
  · rfl

/-- C3 (amended): every calculator run displays exactly the seven trace
columns (time, T_sub, T_bot, T_sh, P_ch, dmdt, percent_dried), in that
order, each column being the corresponding field of the extracted trace
records; the summary contains only the total (primary drying) time. -/
theorem C3_trace_fields_and_summary (output : List (List ℚ)) (e : EqCap) :
    (primaryCalcDisplay output e).traceColumns.map Prod.fst =
        ["Time (hr)", "Sublimation Temp (°C)", "Vial Bottom Temp (°C)",
         "Shelf Temp (°C)", "Chamber Pressure (mTorr)",
         "Sublimation Rate (kg/hr/m²)", "Percent Dried (%)"] ∧
      (primaryCalcDisplay output e).traceColumns.map Prod.snd =
        [(extractTrace output).map TraceRecord.time,
         (extractTrace output).map TraceRecord.T_sub,
         (extractTrace output).map TraceRecord.T_bot,
         (extractTrace output).map TraceRecord.T_sh,
         (extractTrace output).map TraceRecord.P_ch,
         (extractTrace output).map TraceRecord.dmdt,
         (extractTrace output).map TraceRecord.percent_dried] ∧
      (primaryCalcDisplay output e).summaryMetrics =
        [("Primary Drying Time (hr)", primaryDryingTime output)] := by
  refine ⟨rfl, ?_, rfl⟩
  simp only [extractTrace, List.map_map]
  rfl

/-! ### C5 -/

/-- C5: counterexample.  For the example configuration (primary drying
time 20 hr) the reported optimized drying time is 17 hr, but re-running
the simulation with the recommendation's shelf-temperature and pressure
setpoints fed back leaves the drying time at the configured 20 hr: the
round trip does not reproduce the reported value. -/
theorem C5_counterexample :
    (optimizationAnalysis exParams).drying_time = 17 ∧
      currentDryingTime (feedbackParams exParams) = 20 ∧
      (optimizationAnalysis exParams).drying_time ≠
        currentDryingTime (feedbackParams exParams) := by
  refine ⟨?_, rfl, ?_⟩ <;>
    norm_num [optimizationAnalysis, optimized_time, currentDryingTime,
      feedbackParams, exParams]

/-- C5 (amended): the simulated drying time is a function of the
configured phase durations only, so feeding an optimization result's
setpoints back into the simulation leaves the drying time at the
configured `primary_time`; the reported optimized drying time is the
fixed discount `0.85 * primary_time`, and the two agree only in the
degenerate case `primary_time = 0`. -/
theorem C5_roundtrip_fixed_discount (p : AdvParams) :
    currentDryingTime (feedbackParams p) = p.primary_time ∧
      (optimizationAnalysis p).drying_time = p.primary_time * (85/100) ∧
      ((optimizationAnalysis p).drying_time =
          currentDryingTime (feedbackParams p) ↔ p.primary_time = 0) := by
  refine ⟨rfl, rfl, ?_⟩
  show p.primary_time * (85/100) = p.primary_time ↔ p.primary_time = 0
  constructor
  · intro h; linarith
  · intro h; rw [h]; ring

/-! ### C6 -/

/-- C6: counterexample.  With `Tc = -30`, the safe-zone classification is
the same at every pressure of the design-space axis: -34 °C is safe at
all ten pressures and -32 °C is unsafe at all ten — the
critical-temperature boundary is the pressure-independent constant
`Tc - 3`, not a pressure-dependent solution of an energy balance. -/
theorem C6_counterexample :
    (designPressures.map (fun press => safeZoneCell exParams (-34) press)) =
        List.replicate 10 true ∧
      (designPressures.map (fun press => safeZoneCell exParams (-32) press)) =
        List.replicate 10 false := by
  constructor <;>
  · simp only [designPressures, List.range_succ, List.range_zero,
      List.map_append, List.map_cons, List.map_nil, List.nil_append,
      List.cons_append, safeZoneCell, exParams]
    norm_num [List.replicate]

/-- C6 (amended): the safe-zone boundary computed by the design-space tab
is independent of the chamber pressure: a cell is classified safe exactly
when its shelf temperature is below `Tc - 3`, for every pressure. -/
theorem C6_safe_boundary_pressure_independent (p : AdvParams)
    (temp press press' : ℚ) :
    safeZoneCell p temp press = safeZoneCell p temp press' ∧
      (safeZoneCell p temp press = true ↔ temp < p.Tc - 3) :=
  ⟨rfl, by simp [safeZoneCell]⟩

/-! ### C4 -/

/-- The all-zero noise batches. -/
def noiseZero : SimNoise := { r1 := fun _ => 0, r2 := fun _ => 0 }

/-- Noise batches whose primary-phase draws are all 1/2. -/
def noiseHalf : SimNoise := { r1 := fun _ => 1/2, r2 := fun _ => 0 }

/-- C4: counterexample.  Two runs of the simulation with the identical
example configuration but different draws of the random batches disagree
on the product temperature already at the first time point (-40 °C
versus -41 °C), so their product-temperature traces differ; the total
time is nevertheless the same. -/
theorem C4_counterexample :
    productTempAt exParams noiseZero 0 = -40 ∧
      productTempAt exParams noiseHalf 0 = -41 ∧
      (runSimulation exParams noiseZero).product ≠
        (runSimulation exParams noiseHalf).product ∧
      (runSimulation exParams noiseZero).total_time =
        (runSimulation exParams noiseHalf).total_time := by
  have h0 : productTempAt exParams noiseZero 0 = -40 := by
    norm_num [productTempAt, isPrimaryPhase, timePoint, totalTime,
      exParams, noiseZero]
  have h1 : productTempAt exParams noiseHalf 0 = -41 := by
    norm_num [productTempAt, isPrimaryPhase, timePoint, totalTime,
      exParams, noiseHalf]
  refine ⟨h0, h1, ?_, rfl⟩
  intro h
  have h2 : ((List.range 100).map (fun k => productTempAt exParams noiseZero k)).getD 0 0 =
      ((List.range 100).map (fun k => productTempAt exParams noiseHalf k)).getD 0 0 := by
    exact congrArg (fun l => l.getD 0 0) h
  rw [List.getD_eq_getElem?_getD, List.getD_eq_getElem?_getD] at h2
  simp only [List.getElem?_map, List.getElem?_range (by norm_num : (0:ℕ) < 100),
    Option.map_some', Option.getD_some] at h2
  rw [h0, h1] at h2
  norm_num at h2

/-- C4 (amended): for a fixed configuration, every column of the
simulated run except the product temperature — the time points, shelf
temperature, sublimation rate, residual moisture — and the total time
are identical across runs with different random draws; only the product
temperature depends on the draws. -/
theorem C4_deterministic_except_product (p : AdvParams) (n n' : SimNoise) :
    (runSimulation p n).times = (runSimulation p n').times ∧
      (runSimulation p n).shelf = (runSimulation p n').shelf ∧
      (runSimulation p n).subRate = (runSimulation p n').subRate ∧
      (runSimulation p n).moisture = (runSimulation p n').moisture ∧
      (runSimulation p n).total_time = (runSimulation p n').total_time :=
  ⟨rfl, rfl, rfl, rfl, rfl⟩

/-! ### C7 -/

/-- C7: within the searched design-space ranges (shelf temperature at
most `Tc - 1`, positive pressures, positive configured time), the
drying-time cell value is strictly decreasing — in particular monotonic —
in the chamber pressure at every fixed shelf temperature. -/
theorem C7_drying_time_antitone_in_pressure (p : AdvParams)
    (temp p₁ p₂ : ℚ) (htemp : temp ≤ p.Tc - 1) (htime : 0 < p.primary_time)
    (h₁ : 0 < p₁) (h₁₂ : p₁ < p₂) :
    dryingTimeCell p temp p₂ < dryingTimeCell p temp p₁ := by
  have hfac : 0 < p.primary_time * ((p.Tc - temp) / 5) := by
    have h5 : (0:ℚ) < (p.Tc - temp) / 5 := by
      have : (1:ℚ) ≤ p.Tc - temp := by linarith
      linarith
    exact mul_pos htime h5
  have hdiv : (150:ℚ) / p₂ < 150 / p₁ :=
    div_lt_div_of_pos_left (by norm_num) h₁ h₁₂
  exact mul_lt_mul_of_pos_left hdiv hfac

/-- C7: witness at the example configuration: at -33 °C, the drying time
at 150 mTorr (12 hr) is below the drying time at 100 mTorr (18 hr). -/
theorem C7_witness :
    dryingTimeCell exParams (-33) 100 = 18 ∧
      dryingTimeCell exParams (-33) 150 < dryingTimeCell exParams (-33) 100 :=
  ⟨by norm_num [dryingTimeCell, exParams],
    C7_drying_time_antitone_in_pressure exParams (-33) 100 150
      (by norm_num [exParams]) (by norm_num [exParams])
      (by norm_num) (by norm_num)⟩

/-! ### C8 -/

/-- Filling the grid by folding cell writes: the entry at `ij` is the
cell's own value whenever `ij` was visited, independently of the visiting
order, since every write to `ij` stores `cellValue p ij`. -/
theorem foldl_gridWrite_apply (p : AdvParams) (order : List (ℕ × ℕ))
    (g : ℕ × ℕ → Option (ℚ × Bool)) (ij : ℕ × ℕ) :
    (order.foldl (gridWrite p) g) ij =
      if ij ∈ order then some (cellValue p ij) else g ij := by
  induction order generalizing g with
  | nil => simp
  | cons hd tl ih =>
    rw [List.foldl_cons, ih]
    by_cases h : ij ∈ tl
    · simp [h]
    · by_cases h2 : ij = hd
      · subst h2
        simp [h, gridWrite]
      · simp [h, h2, gridWrite]

/-- C8: design-space grid evaluations are independent and
order-insensitive: every cell's value is a function of that cell's shelf
temperature, pressure and the configuration only, so visiting the cells
in any two orders that both contain a cell yields the same grid entry
there, namely the cell's own value. -/
theorem C8_grid_order_insensitive (p : AdvParams)
    (order₁ order₂ : List (ℕ × ℕ)) (ij : ℕ × ℕ)
    (h₁ : ij ∈ order₁) (h₂ : ij ∈ order₂) :
    fillGrid p order₁ ij = fillGrid p order₂ ij ∧
      fillGrid p order₁ ij = some (cellValue p ij) := by
  unfold fillGrid
  rw [foldl_gridWrite_apply, foldl_gridWrite_apply, if_pos h₁, if_pos h₂]
  exact ⟨rfl, rfl⟩

/-- C8: witness: a row-major and a reversed visiting order of a 2×2 block
of cells give the same grid entry at cell (0, 1). -/
theorem C8_witness :
    fillGrid exParams [(0, 0), (0, 1), (1, 0), (1, 1)] (0, 1) =
      fillGrid exParams [(1, 1), (1, 0), (0, 1), (0, 0)] (0, 1) :=
  (C8_grid_order_insensitive exParams
    [(0, 0), (0, 1), (1, 0), (1, 1)] [(1, 1), (1, 0), (0, 1), (0, 0)]
    (0, 1) (by decide) (by decide)).1

/-! ### C10 -/

/-- The height factor is at least 1: the correction term for fill depths
above 1 cm is a nonnegative real power. -/
theorem one_le_heightFactor (d : ℝ) : 1 ≤ heightFactor d := by
  unfold heightFactor
  split_ifs with h
  · have h0 : (0:ℝ) ≤ (d - 1) ^ ((3:ℝ)/2) := Real.rpow_nonneg (by linarith) _
    linarith
  · exact le_refl 1

/-- The clamp is nonnegative. -/
theorem kvClamp_nonneg (kv : ℝ) : 0 ≤ kvClamp kv :=
  le_min (le_max_right kv 0) zero_le_one

/-- The clamp is at most 1. -/
theorem kvClamp_le_one (kv : ℝ) : kvClamp kv ≤ 1 := min_le_right _ _

/-- The clamp is monotone. -/
theorem kvClamp_mono {a b : ℝ} (h : a ≤ b) : kvClamp a ≤ kvClamp b :=
  min_le_min (max_le_max h le_rfl) le_rfl

/-- Clamping twice is clamping once. -/
theorem kvClamp_idem (kv : ℝ) : kvClamp (kvClamp kv) = kvClamp kv := by
  unfold kvClamp
  rw [max_eq_left (le_min (le_max_right kv 0) zero_le_one),
    min_eq_left (min_le_right _ _)]

/-- The clamp of a nonpositive coefficient is 0. -/
theorem kvClamp_of_nonpos {kv : ℝ} (h : kv ≤ 0) : kvClamp kv = 0 := by
  unfold kvClamp
  rw [max_eq_right h, min_eq_left zero_le_one]

/-- The clamp of a coefficient at least 1 is 1. -/
theorem kvClamp_of_one_le {kv : ℝ} (h : 1 ≤ kv) : kvClamp kv = 1 := by
  unfold kvClamp
  rw [max_eq_left (le_trans zero_le_one h), min_eq_right h]

/-- C10: for every fill depth and every protein concentration ≥ 0,
`calculate_drying_time` is monotonically non-increasing in the
heat-transfer coefficient `kv`; it clamps `kv` to `[0, 1]` before use, so
it is constant on each side of that interval (all `kv ≤ 0` give the value
at 0 and all `kv ≥ 1` give the value at 1); and it always returns at
least the base time of 20 hours. -/
theorem C10_drying_time_kv_properties (d c kv₁ kv₂ : ℝ) (hc : 0 ≤ c) :
    (kv₁ ≤ kv₂ → calculate_drying_time d c kv₂ ≤ calculate_drying_time d c kv₁) ∧
      calculate_drying_time d c kv₁ = calculate_drying_time d c (kvClamp kv₁) ∧
      (kv₁ ≤ 0 → calculate_drying_time d c kv₁ = calculate_drying_time d c 0) ∧
      (1 ≤ kv₁ → calculate_drying_time d c kv₁ = calculate_drying_time d c 1) ∧
      20 ≤ calculate_drying_time d c kv₁ := by
  have hH := one_le_heightFactor d
  have hC : (1:ℝ) ≤ 1 + (2/100) * c := by linarith
  have hHC : (0:ℝ) ≤ 20 * heightFactor d * (1 + (2/100) * c) := by nlinarith
  refine ⟨?_, ?_, ?_, ?_, ?_⟩
  · intro hk
    unfold calculate_drying_time
    have hm := kvClamp_mono hk
    have h2 : (3:ℝ)/2 - (1/2) * kvClamp kv₂ ≤ (3:ℝ)/2 - (1/2) * kvClamp kv₁ := by
      linarith
    exact mul_le_mul_of_nonneg_left h2 hHC
  · unfold calculate_drying_time
    rw [kvClamp_idem]
  · intro h
    unfold calculate_drying_time
    rw [kvClamp_of_nonpos h, kvClamp_of_nonpos le_rfl]
  · intro h
    unfold calculate_drying_time
    rw [kvClamp_of_one_le h, kvClamp_of_one_le le_rfl]
  · unfold calculate_drying_time
    have h1 : (1:ℝ) ≤ (3:ℝ)/2 - (1/2) * kvClamp kv₁ := by
      have := kvClamp_le_one kv₁
      linarith
    calc (20:ℝ) ≤ 20 * heightFactor d * (1 + (2/100) * c) := by nlinarith
    _ ≤ 20 * heightFactor d * (1 + (2/100) * c) * ((3:ℝ)/2 - (1/2) * kvClamp kv₁) :=
        le_mul_of_one_le_right hHC h1

/-- C10: witness at fill depth 2 cm, concentration 0 and the out-of-range
coefficients -1 and 2: the predicted time at `kv = -1` evaluates to 45
hours, dominates the time at `kv = 2`, and is at least 20 hours. -/
theorem C10_witness :
    calculate_drying_time 2 0 (-1) = 45 ∧
      calculate_drying_time 2 0 2 ≤ calculate_drying_time 2 0 (-1) ∧
      20 ≤ calculate_drying_time 2 0 (-1) :=
  ⟨by
    simp only [calculate_drying_time, heightFactor, kvClamp]
    norm_num [Real.one_rpow, max_def, min_def],
   (C10_drying_time_kv_properties 2 0 (-1) 2 le_rfl).1 (by norm_num),
   (C10_drying_time_kv_properties 2 0 (-1) 2 le_rfl).2.2.2.2⟩
